import Mathlib

/-!
Shallow embedding of the study-plan wizard logic of
`src/frontend/src/pages/StudyPlanPage.tsx` and the dashboard aggregation of
`src/frontend/src/pages/Nav.tsx`, together with theorems settling the
specification claims about them.

Modelling conventions:
* JavaScript numbers that the code only ever uses as integer counters are
  modelled as `Nat`/`Int`; values that may be fractional (marks, scores,
  task hours) as `ℚ`.
* A JavaScript object keyed by question index (`{ [key: number]: string }`)
  is modelled as a function `Nat → Option String` (missing key = `none`).
* A JavaScript object used as a week-keyed map is modelled as an association
  list `List (String × List StudyTask)`.
* JavaScript string truthiness (`if (s)`, `a || b`) is modelled explicitly:
  the empty string is falsy.
* Sequential React `setXxx` calls within one handler are collapsed into a
  single resulting state, with a later write to the same field winning —
  which is the observable behaviour of batched state updates.
* Network calls are modelled by passing the response (or failure) of the server
  as an explicit `ApiResult` argument to the handler.
-/

/-- Result of an awaited API call: either the parsed response body, or a
failure whose optional `detail` string mirrors `err.response?.data?.detail`. -/
inductive ApiResult (α : Type) where
  | ok (val : α)
  | err (detail : Option String)
deriving Repr, DecidableEq

/-- JS `a || b` for an optional string `a`: the empty string is falsy. -/
def jsStringOr (a : Option String) (b : String) : String :=
  match a with
  | some s => if s = "" then b else s
  | none => b

/-- JS truthiness of an optional string field (`undefined` and `""` are falsy). -/
def isTruthyStr (a : Option String) : Bool :=
  match a with
  | some s => s ≠ ""
  | none => false

/-- The `QuizQuestion` interface of StudyPlanPage.tsx. -/
structure QuizQuestion where
  question : String
  options : List String
  answer : String
  chapter : Option String := none
  topic : Option String := none
  marks : Option ℚ := none
deriving Repr, DecidableEq

/-- The `StudyTask` interface of StudyPlanPage.tsx. -/
structure StudyTask where
  id : Int
  topic : String
  subject : String := ""
  subtopic : String := ""
  date : String := ""
  time : ℚ := 0
  difficulty : String := ""
  quest_type : String := ""
  rewards : String := ""
  description : String := ""
  completed : Bool
  progress : ℚ := 0
  chapter : String
deriving Repr, DecidableEq

/-- The `StudyPlan` interface: a week-keyed map of task lists. -/
abbrev StudyPlan := List (String × List StudyTask)

/-- The `Progress` interface (a progress record from `GET /progress`). -/
structure ProgressRecord where
  task_id : String
  completed : Bool
  score : Option ℚ
deriving Repr, DecidableEq

/-- The `Stats` interface of StudyPlanPage.tsx. -/
structure Stats where
  completedTasks : Nat := 0
  totalTasks : Nat := 0
  currentStreak : Nat := 0
  weeklyGoal : Nat := 0
  totalPoints : Nat := 0
  completedThisWeek : Nat := 0
  averageScore : ℚ := 0
deriving Repr, DecidableEq

/-- The quiz `type` discriminator of `handleQuizSubmit`. -/
inductive QuizType where
  | initial
  | topic
  | chapter
  | three_chapter
deriving Repr, DecidableEq

/-- The apostrophe character, kept out of string literals. -/
def apos : String := String.singleton (Char.ofNat 39)

/-- The missed-tasks nudge message (first branch of `generateNudge`). -/
def missedMsg (missed : Nat) (weak : List String) : String :=
  let ws := String.intercalate ", " (weak.take 2)
  let target := if ws = "" then "your studies" else ws
  "Oops, you missed " ++ toString missed ++ " tasks! Let" ++ apos ++
    "s focus on " ++ target ++ " and conquer them together!"

/-- The weak-chapters nudge message (second branch of `generateNudge`). -/
def weakMsg (weak : List String) : String :=
  "You" ++ apos ++ "re making progress, but let" ++ apos ++
    "s strengthen your skills in " ++ String.intercalate ", " (weak.take 2) ++
    ". Keep pushing, brave scholar!"

/-- The mastery nudge message (completion rate above 0.8). -/
def masteryMsg : String :=
  "You" ++ apos ++
    "re dominating the knowledge kingdom like a true champion! Keep ruling!"

/-- The halfway nudge message (completion rate above 0.5). -/
def halfwayMsg : String :=
  "Great progress, adventurer! You" ++ apos ++
    "re halfway to mastering this realm. Let" ++ apos ++ "s keep exploring!"

/-- The generic encouragement nudge message (final branch). -/
def genericMsg : String :=
  "Every step counts, young scholar! Let" ++ apos ++
    "s dive into the next quest and build your skills!"

/-- Function `generateNudge` of StudyPlanPage.tsx (lines 252-259).  The completion
rate is `completed / total`, guarded to `0` when `total` is `0`. -/
def generateNudge (completed total missed : Nat) (weak : List String) : String :=
  let rate : ℚ := if 0 < total then (completed : ℚ) / (total : ℚ) else 0
  if 0 < missed then missedMsg missed weak
  else if weak.length ≠ 0 then weakMsg weak
  else if (4 : ℚ) / 5 < rate then masteryMsg
  else if (1 : ℚ) / 2 < rate then halfwayMsg
  else genericMsg

/-- Weak-chapter attribution for one missed question, following the two
chained `else if` branches of `handleQuizSubmit` (lines 415-419):
`initial`/`three_chapter` push the own (truthy) chapter tag of the question;
`chapter` pushes `q.chapter || selectedChapter || ''` but only when the
question carries a truthy `topic` tag; `topic` pushes nothing. -/
def missContribution (ty : QuizType) (selectedChapter : Option String)
    (q : QuizQuestion) : List String :=
  match ty with
  | .initial => if isTruthyStr q.chapter then [q.chapter.getD ""] else []
  | .three_chapter => if isTruthyStr q.chapter then [q.chapter.getD ""] else []
  | .chapter =>
    if isTruthyStr q.topic then [jsStringOr q.chapter (jsStringOr selectedChapter "")]
    else []
  | .topic => []

/-- The `quiz.forEach((q, i) => ...)` loop of `handleQuizSubmit`
(lines 415-419), started at index `i`: counts correct answers and collects
the weak-chapter contributions of missed questions in question order. -/
def scoreWeakAux (ty : QuizType) (selectedChapter : Option String)
    (answers : Nat → Option String) : Nat → List QuizQuestion → Nat × List String
  | _, [] => (0, [])
  | i, q :: qs =>
    let r := scoreWeakAux ty selectedChapter answers (i + 1) qs
    if answers i = some q.answer then (r.1 + 1, r.2)
    else (r.1, missContribution ty selectedChapter q ++ r.2)

/-- Score and raw weak-chapter list of a quiz submission (loop started at 0). -/
def scoreWeak (ty : QuizType) (selectedChapter : Option String)
    (quiz : List QuizQuestion) (answers : Nat → Option String) : Nat × List String :=
  scoreWeakAux ty selectedChapter answers 0 quiz

/-- The `initialQuiz.forEach((q, i) => ...)` loop of `handleInitialQuizSubmit`
(lines 310-313), started at index `i`: counts correct answers; a missed
question with a truthy `chapter` tag pushes that chapter (no deduplication). -/
def initialScoreWeakAux (answers : Nat → Option String) :
    Nat → List QuizQuestion → Nat × List String
  | _, [] => (0, [])
  | i, q :: qs =>
    let r := initialScoreWeakAux answers (i + 1) qs
    if answers i = some q.answer then (r.1 + 1, r.2)
    else if isTruthyStr q.chapter then (r.1, q.chapter.getD "" :: r.2)
    else r

/-- Score and weak-chapter list computed by `handleInitialQuizSubmit`. -/
def initialScoreWeak (quiz : List QuizQuestion)
    (answers : Nat → Option String) : Nat × List String :=
  initialScoreWeakAux answers 0 quiz

/-- JS `[...new Set(l)]` on a list of strings: removes duplicates keeping the
first occurrence of each element, preserving insertion order. -/
def insertionDedup (l : List String) : List String :=
  l.foldl (fun acc c => if c ∈ acc then acc else acc ++ [c]) []

/-- The component state of `StudyPlanPage` that the embedded handlers read
and write (the `useState` hooks of lines 93-151 that carry wizard logic). -/
structure WizardState where
  step : Int := 0
  board : String := ""
  classNum : Nat := 9
  selectedSubject : String := ""
  extraChapters : List String := []
  weakChapters : List String := []
  studyPlan : StudyPlan := []
  progress : List ProgressRecord := []
  stats : Stats := {}
  error : Option String := none
  previousMarks : Option ℚ := none
  knowledgeLevel : String := "beginner"
  initialQuiz : List QuizQuestion := []
  topicQuiz : List QuizQuestion := []
  chapterQuiz : List QuizQuestion := []
  threeChapterQuiz : List QuizQuestion := []
  quizAnswers : Nat → Option String := fun _ => none
  topicQuizAnswers : Nat → Option String := fun _ => none
  chapterQuizAnswers : Nat → Option String := fun _ => none
  threeChapterQuizAnswers : Nat → Option String := fun _ => none
  quizScore : Option Nat := none
  selectedChapter : Option String := none
  selectedTopic : Option String := none
  currentSubtopic : Option String := none
  completedChapters : List String := []
  completedTopics : List String := []
  missedDate : String := ""
  nudge : String := ""

/-- The quiz list `handleQuizSubmit` selects for a given type (line 414). -/
def quizFor (s : WizardState) : QuizType → List QuizQuestion
  | .initial => s.initialQuiz
  | .topic => s.topicQuiz
  | .chapter => s.chapterQuiz
  | .three_chapter => s.threeChapterQuiz

/-- The answer map `handleQuizSubmit` selects for a given type (line 413). -/
def answersFor (s : WizardState) : QuizType → (Nat → Option String)
  | .initial => s.quizAnswers
  | .topic => s.topicQuizAnswers
  | .chapter => s.chapterQuizAnswers
  | .three_chapter => s.threeChapterQuizAnswers

/-- Handler `handleMarksSubmit` (lines 297-305): with non-null marks, derive the
knowledge level by the fixed step function and advance to step 4; with null
marks, surface a local error. -/
def handleMarksSubmit (s : WizardState) : WizardState :=
  match s.previousMarks with
  | some m =>
    let level : String :=
      if m < 60 then "beginner" else if m ≤ 75 then "intermediate" else "advanced"
    { s with knowledgeLevel := level, step := 4 }
  | none => { s with error := some "Please enter your marks" }

/-- Handler `handleInitialQuizSubmit` (lines 307-334): recompute score and the raw
(non-deduplicated) weak-chapter list from the initial quiz, store both, then
POST `/study-plans`; on success adopt the returned plan and advance to
step 6, on failure surface the error.  `planServer` is the
response to the POST. -/
def handleInitialQuizSubmit (s : WizardState)
    (planServer : ApiResult StudyPlan) : WizardState :=
  let r := initialScoreWeak s.initialQuiz s.quizAnswers
  let s1 := { s with quizScore := some r.1, weakChapters := r.2 }
  match planServer with
  | .ok plan => { s1 with studyPlan := plan, step := 6 }
  | .err d => { s1 with error := some (jsStringOr d "Failed to generate study plan") }

/-- The per-type step transition of `handleQuizSubmit` (lines 422-433),
applied to the state `s2` that already carries the score and the
thresholded weak-chapter update: `initial` delegates to
`handleInitialQuizSubmit`; `topic` returns to step 6 clearing the current
subtopic; `chapter` advances to step 10 when at least three chapters are
completed (`count` is the completed-chapter count read from the
state) and otherwise to step 6; `three_chapter` returns to step 6. -/
def quizSubmitAdvance (s2 : WizardState) (count : Nat)
    (planServer : ApiResult StudyPlan) : QuizType → WizardState
  | .initial => handleInitialQuizSubmit s2 planServer
  | .topic => { s2 with step := 6, currentSubtopic := none }
  | .chapter =>
    if 3 ≤ count then { s2 with step := 10 }
    else { s2 with step := 6 }
  | .three_chapter => { s2 with step := 6 }

/-- The trailing `PUT /progress` of `handleQuizSubmit` (lines 435-445),
performed only for non-initial types: its response body is ignored, and a
failure only surfaces an error message. -/
def applyPutResult (s3 : WizardState) (ty : QuizType) : ApiResult Unit → WizardState
  | .ok _ => s3
  | .err d =>
    if ty = QuizType.initial then s3
    else { s3 with error := some (jsStringOr d "Failed to save quiz progress") }

/-- Handler `handleQuizSubmit` (lines 410-446).  `planServer` is the
response to the `/study-plans` POST that the initial branch performs via
`handleInitialQuizSubmit`; `progressPut` is the response to the
`PUT /progress` performed for non-initial types.  The JS ratio test
`score / quiz.length < 0.6` is rendered as `5 * score < 3 * length`, which
agrees with the floating-point comparison on all integer inputs, including
`length = 0` where JS compares `NaN < 0.6` (false). -/
def handleQuizSubmit (s : WizardState) (ty : QuizType)
    (planServer : ApiResult StudyPlan) (progressPut : ApiResult Unit) : WizardState :=
  let quiz := quizFor s ty
  let r := scoreWeak ty s.selectedChapter quiz (answersFor s ty)
  let weak := s.weakChapters ++ r.2
  let s1 := { s with quizScore := some r.1 }
  let s2 :=
    if 5 * r.1 < 3 * quiz.length then { s1 with weakChapters := insertionDedup weak }
    else s1
  applyPutResult (quizSubmitAdvance s2 s.completedChapters.length planServer ty)
    ty progressPut

/-- The topic/chapter completion checks of `handleTaskCompletion`
(lines 355-368), run after both writes succeed.  They flatten the plan the
handler captured — `s.studyPlan`, the plan from *before* the
update, because `setStudyPlan` does not change the local binding — and
test `completed` on every task sharing the topic/chapter of the completed task,
accumulating the completed-topics/chapters sets and advancing to step 8
and/or step 9. -/
def completionChecks (s s2 : WizardState) (task : StudyTask) : WizardState :=
  let allTasks := (s.studyPlan.map Prod.snd).flatten
  let topicTasks := allTasks.filter fun t =>
    t.topic == task.topic && t.chapter == task.chapter
  let s3 :=
    if topicTasks.all (·.completed) then
      { s2 with
        completedTopics := insertionDedup (s.completedTopics ++ [task.topic]),
        selectedTopic := some task.topic,
        selectedChapter := some task.chapter,
        step := 8 }
    else s2
  let chapterTasks := allTasks.filter fun t => t.chapter == task.chapter
  if chapterTasks.all (·.completed) then
    { s3 with
      completedChapters := insertionDedup (s.completedChapters ++ [task.chapter]),
      selectedChapter := some task.chapter,
      step := 9 }
  else s3

/-- The `PUT /progress` stage of `handleTaskCompletion` (lines 349-354): on
success the returned record is appended to the progress log (as captured in
`s.progress`) and the completion checks run; on failure only an error is
surfaced. -/
def afterProgressPut (s s1 : WizardState) (task : StudyTask) :
    ApiResult ProgressRecord → WizardState
  | .ok rec => completionChecks s { s1 with progress := s.progress ++ [rec] } task
  | .err d => { s1 with error := some (jsStringOr d "Failed to update task progress") }

/-- The `PUT /task-progress` stage of `handleTaskCompletion`
(lines 340-347): on success the returned plan is adopted wholesale and the
progress write follows; on failure only an error is surfaced. -/
def afterTaskPut (s : WizardState) (task : StudyTask)
    (progressServer : ApiResult ProgressRecord) : ApiResult StudyPlan → WizardState
  | .ok plan => afterProgressPut s { s with studyPlan := plan } task progressServer
  | .err d => { s with error := some (jsStringOr d "Failed to update task progress") }

/-- Handler `handleTaskCompletion` (lines 336-372): look up the task by
scanning the list of the given week (silently returning the state unchanged when
absent), then run the two persistence writes and the stale-plan completion
checks. -/
def handleTaskCompletion (s : WizardState) (week : String) (taskId : Int)
    (taskServer : ApiResult StudyPlan)
    (progressServer : ApiResult ProgressRecord) : WizardState :=
  match (s.studyPlan.lookup week).bind (fun ts => ts.find? fun t => t.id == taskId) with
  | none => s
  | some task => afterTaskPut s task progressServer taskServer

/-- The request body of `PUT /reschedule`. -/
structure RescheduleRequest where
  subject : String
  missed_date : String
deriving Repr, DecidableEq

/-- Handler `handleReschedule` (lines 395-408): an empty missed date surfaces a
local error and performs no network call; otherwise the date and current
subject are sent, and on success the returned plan is adopted wholesale,
the nudge recomputed and the date cleared, while a failure only surfaces an
error.  The second component is the request that was issued, if any. -/
def handleReschedule (s : WizardState)
    (server : ApiResult StudyPlan) : WizardState × Option RescheduleRequest :=
  if s.missedDate = "" then
    ({ s with error := some "Please select a missed date" }, none)
  else
    let req : RescheduleRequest := ⟨s.selectedSubject, s.missedDate⟩
    match server with
    | .ok plan =>
      ({ s with
          studyPlan := plan,
          nudge := generateNudge s.stats.completedTasks s.stats.totalTasks 0 s.weakChapters,
          missedDate := "" }, some req)
    | .err d =>
      ({ s with error := some (jsStringOr d "Failed to reschedule tasks") }, some req)

/-- JS `p.score || 0`: `null` and `0` are falsy, any other number is itself. -/
def jsNumOr (a : Option ℚ) (b : ℚ) : ℚ :=
  match a with
  | some x => if x = 0 then b else x
  | none => b

/-- JS `Math.round`: nearest integer, ties rounded toward `+∞`. -/
def jsRound (q : ℚ) : Int := ⌊q + 1 / 2⌋

/-- Function `calculateTotalXP` of Nav.tsx (lines 339-341): each record contributes
`score * 10` when its score is truthy, otherwise `0`. -/
def calculateTotalXP (progress : List ProgressRecord) : ℚ :=
  progress.foldl
    (fun total p =>
      total + match p.score with
        | some x => if x = 0 then 0 else x * 10
        | none => 0)
    0

/-- Function `getProgressStats` of Nav.tsx (lines 343-349): counts completed records
and all records, and averages `score || 0` over *all* records divided by
`completed || 1`, rounded with `Math.round`. -/
def getProgressStats (progress : List ProgressRecord) : Nat × Nat × Int :=
  let completed := (progress.filter (·.completed)).length
  let total := progress.length
  let averageScore :=
    (progress.foldl (fun sum p => sum + jsNumOr p.score 0) 0) /
      (if completed = 0 then 1 else (completed : ℚ))
  (completed, total, jsRound averageScore)

/-! ### Concrete inputs used by counterexamples and witnesses -/

/-- A quiz question with the given answer key and chapter tag. -/
def mkQ (a : String) (ch : Option String) : QuizQuestion :=
  { question := "", options := [], answer := a, chapter := ch }

/-- The three questions of the end-to-end scenario of the spec: answer keys
`["A", "X", "C"]`, chapters `["Ch1", "Ch2", "Ch3"]`. -/
def scenarioQuiz : List QuizQuestion :=
  [mkQ "A" (some "Ch1"), mkQ "X" (some "Ch2"), mkQ "C" (some "Ch3")]

/-- The answer map `{0: "A", 1: "B", 2: "C"}` of the end-to-end scenario. -/
def scenarioAnswers : Nat → Option String := fun i =>
  if i = 0 then some "A" else if i = 1 then some "B"
  else if i = 2 then some "C" else none

/-- An incomplete or complete plan task for chapter `Motion`. -/
def motionTask (i : Int) (c : Bool) : StudyTask :=
  { id := i, topic := "Kinematics", completed := c, chapter := "Motion",
    date := "2026-01-01" }

/-- A plan with three `Motion` tasks, the first two complete, in wizard
step 6 (the plan dashboard). -/
def motionState : WizardState :=
  { step := 6,
    studyPlan := [("1", [motionTask 1 true, motionTask 2 true, motionTask 3 false])] }

/-- A plan with three `Motion` tasks of which only the first is complete. -/
def motionStateEarly : WizardState :=
  { step := 6,
    studyPlan := [("1", [motionTask 1 true, motionTask 2 false, motionTask 3 false])] }

/-- The plan the server returns once task 3 is marked complete. -/
def motionServerPlan : StudyPlan :=
  [("1", [motionTask 1 true, motionTask 2 true, motionTask 3 true])]

/-- The plan the server returns once task 2 is marked complete. -/
def motionServerPlanEarly : StudyPlan :=
  [("1", [motionTask 1 true, motionTask 2 true, motionTask 3 false])]

/-- The progress record the server returns for a completed plan task. -/
def motionRecord (i : Int) : ProgressRecord := ⟨toString i, true, none⟩

/-- An initial-quiz state scoring 3 of 5 (ratio exactly 0.6) with two
missed questions that carry chapter tags. -/
def ratioBoundaryState : WizardState :=
  { initialQuiz :=
      [mkQ "A" none, mkQ "A" none, mkQ "A" none,
       mkQ "B" (some "Ch1"), mkQ "B" (some "Ch2")],
    quizAnswers := fun _ => some "A" }

/-- An initial quiz whose two questions carry the same chapter tag. -/
def dupChapterState : WizardState :=
  { initialQuiz := [mkQ "A" (some "Ch1"), mkQ "A" (some "Ch1")],
    quizAnswers := fun _ => some "B" }

/-- A chapter-quiz question tagged with its own chapter `ChX` and topic `T`. -/
def taggedQ : QuizQuestion :=
  { question := "", options := [], answer := "A",
    chapter := some "ChX", topic := some "T" }

/-! ### Helper lemmas -/

/-- Membership through the `insertionDedup` fold: an element is in the fold
of `l` over `acc` exactly when it is in `acc` or in `l`. -/
lemma mem_dedup_foldl (a : String) :
    ∀ (l acc : List String),
      (a ∈ l.foldl (fun acc c => if c ∈ acc then acc else acc ++ [c]) acc) ↔
        a ∈ acc ∨ a ∈ l := by
  intro l
  induction l with
  | nil => intro acc; simp
  | cons c l ih =>
    intro acc
    rw [List.foldl_cons]
    by_cases hc : c ∈ acc
    · rw [if_pos hc, ih, List.mem_cons]
      constructor
      · rintro (h | h)
        · exact Or.inl h
        · exact Or.inr (Or.inr h)
      · rintro (h | h | h)
        · exact Or.inl h
        · exact Or.inl (by rwa [h])
        · exact Or.inr h
    · rw [if_neg hc, ih, List.mem_append, List.mem_singleton, List.mem_cons]
      tauto

/-- `insertionDedup` neither adds nor removes elements. -/
lemma mem_insertionDedup (a : String) (l : List String) :
    a ∈ insertionDedup l ↔ a ∈ l := by
  unfold insertionDedup
  rw [mem_dedup_foldl]
  simp

/-- The `forEach` scoring loop, characterised over the index-decorated list
`List.enumFrom i quiz`: the score is the number of correctly answered
positions, and the weak list is the concatenation of the per-question miss
contributions of the missed positions, in question order. -/
lemma scoreWeakAux_enumFrom (ty : QuizType) (sel : Option String)
    (ans : Nat → Option String) :
    ∀ (quiz : List QuizQuestion) (i : Nat),
      scoreWeakAux ty sel ans i quiz =
        (((List.enumFrom i quiz).filter fun p => ans p.1 == some p.2.answer).length,
         (List.enumFrom i quiz).flatMap fun p =>
           if ans p.1 == some p.2.answer then [] else missContribution ty sel p.2) := by
  intro quiz
  induction quiz with
  | nil => intro i; rfl
  | cons q qs ih =>
    intro i
    simp only [scoreWeakAux, List.enumFrom, List.filter_cons, List.flatMap_cons, ih (i + 1)]
    by_cases h : ans i = some q.answer
    · simp [h]
    · simp [h]

/-- Binding an if-guarded singleton over a list is filtering then mapping. -/
lemma bind_guarded_singleton {α β : Type} (c d : α → Bool) (f : α → β) :
    ∀ l : List α,
      (l.flatMap fun a => if c a then [] else if d a then [f a] else []) =
        ((l.filter fun a => !(c a) && d a).map f) := by
  intro l
  induction l with
  | nil => rfl
  | cons a l ih =>
    by_cases h : c a
    · simp [h, ih]
    · by_cases h2 : d a <;> simp [h, h2, ih]

/-- The loop of `handleInitialQuizSubmit` is the `initial` case of the loop
of `handleQuizSubmit`. -/
lemma initialScoreWeakAux_eq_scoreWeakAux (ans : Nat → Option String) :
    ∀ (quiz : List QuizQuestion) (i : Nat),
      initialScoreWeakAux ans i quiz = scoreWeakAux .initial none ans i quiz := by
  intro quiz
  induction quiz with
  | nil => intro i; rfl
  | cons q qs ih =>
    intro i
    simp only [initialScoreWeakAux, scoreWeakAux, missContribution, ih (i + 1)]
    by_cases h : ans i = some q.answer
    · simp [h]
    · by_cases h2 : isTruthyStr q.chapter <;> simp [h, h2]

/-- Folding addition of a projection equals the sum of the mapped list. -/
lemma foldl_add_eq_sum (f : ProgressRecord → ℚ) :
    ∀ (l : List ProgressRecord) (q : ℚ),
      l.foldl (fun s p => s + f p) q = q + (l.map f).sum := by
  intro l
  induction l with
  | nil => intro q; simp
  | cons p l ih => intro q; simp [ih, add_assoc]

/-! ### Claim theorems -/

/-- C1: for every non-null marks value `m` submitted at the prior-marks
step, the derived knowledge level is `beginner` exactly when `m < 60`,
`intermediate` exactly when `60 ≤ m ≤ 75` (so both boundary values 60 and
75 map to `intermediate`), `advanced` exactly when `m > 75`, and the wizard
advances to step 4. -/
theorem marks_to_level_bands (s : WizardState) (m : ℚ)
    (hm : s.previousMarks = some m) :
    ((handleMarksSubmit s).knowledgeLevel = "beginner" ↔ m < 60) ∧
    ((handleMarksSubmit s).knowledgeLevel = "intermediate" ↔ 60 ≤ m ∧ m ≤ 75) ∧
    ((handleMarksSubmit s).knowledgeLevel = "advanced" ↔ 75 < m) ∧
    (handleMarksSubmit s).step = 4 := by
  have hlevel : (handleMarksSubmit s).knowledgeLevel =
      (if m < 60 then "beginner" else if m ≤ 75 then "intermediate" else "advanced") := by
    simp [handleMarksSubmit, hm]
  have hstep : (handleMarksSubmit s).step = 4 := by
    simp [handleMarksSubmit, hm]
  rw [hlevel]
  refine ⟨?_, ?_, ?_, hstep⟩ <;>
    (by_cases h1 : m < 60 <;> by_cases h2 : m ≤ 75 <;>
      simp [h1, h2] <;> linarith)

/-- Witness for C1 at the boundary inputs 60 and 75. -/
theorem marks_to_level_bands_witness :
    (handleMarksSubmit { previousMarks := some 60 }).knowledgeLevel = "intermediate" ∧
    (handleMarksSubmit { previousMarks := some 75 }).knowledgeLevel = "intermediate" ∧
    (handleMarksSubmit { previousMarks := some 60 }).step = 4 :=
  ⟨(marks_to_level_bands { previousMarks := some 60 } 60 rfl).2.1.mpr (by norm_num),
   (marks_to_level_bands { previousMarks := some 75 } 75 rfl).2.1.mpr (by norm_num),
   (marks_to_level_bands { previousMarks := some 60 } 60 rfl).2.2.2⟩

/-- C10: the nudge generator is total for `total = 0`: the completion rate
is guarded to `0`, so an empty plan with no missed tasks and no weak
chapters yields the generic encouragement message, for every `completed`. -/
theorem nudge_total_zero_generic (c : Nat) :
    generateNudge c 0 0 [] = genericMsg := by
  norm_num [generateNudge]

/-- C3: the nudge cascade in strict priority order — a positive missed
count always yields the missed-tasks message; otherwise non-empty weak
chapters yield the weak-chapters message; otherwise a completion ratio
above 0.8 yields the mastery message; otherwise a ratio above 0.5 yields
the halfway message; otherwise the generic encouragement.  In particular
`missedCount = 2, weakChapters = ["Algebra"]` yields the missed-tasks
message for every ratio, and that message differs from every ratio-based
message. -/
theorem nudge_cascade :
    (∀ (c t m : Nat) (w : List String), 0 < m →
      generateNudge c t m w = missedMsg m w) ∧
    (∀ (c t : Nat) (w : List String), w ≠ [] →
      generateNudge c t 0 w = weakMsg w) ∧
    (∀ c t : Nat, 0 < t → 4 * t < 5 * c →
      generateNudge c t 0 [] = masteryMsg) ∧
    (∀ c t : Nat, 0 < t → 5 * c ≤ 4 * t → t < 2 * c →
      generateNudge c t 0 [] = halfwayMsg) ∧
    (∀ c t : Nat, 2 * c ≤ t →
      generateNudge c t 0 [] = genericMsg) ∧
    (∀ c t : Nat, generateNudge c t 2 ["Algebra"] = missedMsg 2 ["Algebra"]) ∧
    missedMsg 2 ["Algebra"] ≠ masteryMsg ∧
    missedMsg 2 ["Algebra"] ≠ halfwayMsg ∧
    missedMsg 2 ["Algebra"] ≠ genericMsg := by
  refine ⟨?_, ?_, ?_, ?_, ?_, ?_, by decide, by decide, by decide⟩
  · intro c t m w hm
    simp only [generateNudge]
    rw [if_pos hm]
  · intro c t w hw
    have hlen : w.length ≠ 0 := by simpa using hw
    simp only [generateNudge]
    rw [if_neg (lt_irrefl 0), if_pos hlen]
  · intro c t ht h
    have h1 : (4 : ℚ) / 5 < (c : ℚ) / (t : ℚ) := by
      rw [div_lt_div_iff₀ (by norm_num) (by exact_mod_cast ht)]
      have : (4 : ℚ) * t < 5 * c := by exact_mod_cast h
      linarith
    simp [generateNudge, ht, h1]
  · intro c t ht h45 h12
    have h1 : ¬ ((4 : ℚ) / 5 < (c : ℚ) / (t : ℚ)) := by
      rw [div_lt_div_iff₀ (by norm_num) (by exact_mod_cast ht)]
      have : (5 : ℚ) * c ≤ 4 * t := by exact_mod_cast h45
      push_neg
      linarith
    have h2 : (1 : ℚ) / 2 < (c : ℚ) / (t : ℚ) := by
      rw [div_lt_div_iff₀ (by norm_num) (by exact_mod_cast ht)]
      have : (t : ℚ) < 2 * c := by exact_mod_cast h12
      linarith
    simp [generateNudge, ht, h1, h2]
    intro hle
    exact absurd h2 (not_lt.mpr (by linarith))
  · intro c t h
    rcases Nat.eq_zero_or_pos t with ht | ht
    · subst ht
      norm_num [generateNudge]
    · have hle : (c : ℚ) / (t : ℚ) ≤ 1 / 2 := by
        rw [div_le_div_iff₀ (by exact_mod_cast ht) (by norm_num)]
        have : 2 * (c : ℚ) ≤ t := by exact_mod_cast h
        linarith
      have h1 : ¬ ((4 : ℚ) / 5 < (c : ℚ) / (t : ℚ)) := by
        push_neg
        linarith
      have h2 : ¬ ((1 : ℚ) / 2 < (c : ℚ) / (t : ℚ)) := by
        push_neg
        linarith
      simp [generateNudge, ht, h1, h2]
      intro hlt
      exact absurd hlt (not_lt.mpr (by linarith))
  · intro c t
    simp only [generateNudge]
    rw [if_pos (by norm_num : (0 : Nat) < 2)]

/-- Witness for C3: each guarded branch of the cascade at concrete inputs. -/
theorem nudge_cascade_witness :
    generateNudge 1 10 3 ["Algebra", "Calculus", "Trig"] =
      missedMsg 3 ["Algebra", "Calculus", "Trig"] ∧
    generateNudge 1 10 0 ["Algebra"] = weakMsg ["Algebra"] ∧
    generateNudge 9 10 0 [] = masteryMsg ∧
    generateNudge 6 10 0 [] = halfwayMsg ∧
    generateNudge 5 10 0 [] = genericMsg :=
  ⟨nudge_cascade.1 1 10 3 _ (by norm_num),
   nudge_cascade.2.1 1 10 _ (by simp),
   nudge_cascade.2.2.1 9 10 (by norm_num) (by norm_num),
   nudge_cascade.2.2.2.1 6 10 (by norm_num) (by norm_num) (by norm_num),
   nudge_cascade.2.2.2.2.1 5 10 (by norm_num)⟩

/-- C2 (amended): initial-quiz scoring counts exactly the indices whose
given answer equals the answer key of the question, and every incorrectly or
unanswered question carrying a (truthy) chapter tag appends that chapter to
the weak list in question order — *without* deduplication (duplicate tags
are retained).  The end-to-end scenario (answer keys `["A","X","C"]`,
chapters `["Ch1","Ch2","Ch3"]`, answers `{0:"A",1:"B",2:"C"}`) yields
score 2 and weak chapters `["Ch2"]`. -/
theorem initial_scoring_spec :
    (∀ (quiz : List QuizQuestion) (ans : Nat → Option String),
      initialScoreWeak quiz ans =
        ((quiz.enum.filter fun p => ans p.1 == some p.2.answer).length,
         (quiz.enum.filter fun p =>
             !(ans p.1 == some p.2.answer) && isTruthyStr p.2.chapter).map
           fun p => p.2.chapter.getD "")) ∧
    initialScoreWeak scenarioQuiz scenarioAnswers = (2, ["Ch2"]) := by
  constructor
  · intro quiz ans
    rw [initialScoreWeak, initialScoreWeakAux_eq_scoreWeakAux, scoreWeakAux_enumFrom]
    have hbind :
        ((List.enumFrom 0 quiz).flatMap fun p =>
            if ans p.1 == some p.2.answer then []
            else missContribution .initial none p.2) =
          ((List.enumFrom 0 quiz).flatMap fun p =>
            if ans p.1 == some p.2.answer then []
            else if isTruthyStr p.2.chapter then [p.2.chapter.getD ""] else []) := by
      simp only [missContribution]
    rw [List.enum]
    rw [hbind, bind_guarded_singleton]
  · decide

/-- Counterexample to C2 as stated: the weak accumulator of the initial
quiz is not deduplicated — two missed questions tagged with the same
chapter `Ch1` produce `["Ch1", "Ch1"]`, which differs from its
first-occurrence deduplication `["Ch1"]`; the submit handler persists the
duplicated list. -/
theorem initial_scoring_dedup_cex :
    (initialScoreWeak dupChapterState.initialQuiz dupChapterState.quizAnswers).2 =
      ["Ch1", "Ch1"] ∧
    insertionDedup ["Ch1", "Ch1"] = ["Ch1"] ∧
    (["Ch1", "Ch1"] : List String) ≠ ["Ch1"] ∧
    (handleQuizSubmit dupChapterState .initial (.ok []) (.ok ())).weakChapters =
      ["Ch1", "Ch1"] := by
  refine ⟨by decide, by decide, by decide, by decide⟩

/-- C6 (amended): miss attribution by quiz type — for `initial` and
`three_chapter` quizzes the truthy chapter tag of every missed question is
collected; for `topic` quizzes misses contribute nothing at all; for
`chapter` quizzes a miss contributes only when the question carries a
truthy `topic` tag, and the contributed chapter is the own
chapter tag when truthy, falling back to the currently selected chapter
only otherwise. -/
theorem miss_attribution_by_type :
    ∀ (quiz : List QuizQuestion) (ans : Nat → Option String) (sel : Option String),
      ((scoreWeak .initial sel quiz ans).2 =
        ((quiz.enum.filter fun p =>
            !(ans p.1 == some p.2.answer) && isTruthyStr p.2.chapter).map
          fun p => p.2.chapter.getD "")) ∧
      ((scoreWeak .three_chapter sel quiz ans).2 =
        ((quiz.enum.filter fun p =>
            !(ans p.1 == some p.2.answer) && isTruthyStr p.2.chapter).map
          fun p => p.2.chapter.getD "")) ∧
      ((scoreWeak .topic sel quiz ans).2 = []) ∧
      ((scoreWeak .chapter sel quiz ans).2 =
        ((quiz.enum.filter fun p =>
            !(ans p.1 == some p.2.answer) && isTruthyStr p.2.topic).map
          fun p => jsStringOr p.2.chapter (jsStringOr sel ""))) := by
  intro quiz ans sel
  refine ⟨?_, ?_, ?_, ?_⟩
  · rw [scoreWeak, scoreWeakAux_enumFrom, List.enum]
    have hbind :
        ((List.enumFrom 0 quiz).flatMap fun p =>
            if ans p.1 == some p.2.answer then []
            else missContribution .initial sel p.2) =
          ((List.enumFrom 0 quiz).flatMap fun p =>
            if ans p.1 == some p.2.answer then []
            else if isTruthyStr p.2.chapter then [p.2.chapter.getD ""] else []) := by
      simp only [missContribution]
    rw [hbind, bind_guarded_singleton]
  · rw [scoreWeak, scoreWeakAux_enumFrom, List.enum]
    have hbind :
        ((List.enumFrom 0 quiz).flatMap fun p =>
            if ans p.1 == some p.2.answer then []
            else missContribution .three_chapter sel p.2) =
          ((List.enumFrom 0 quiz).flatMap fun p =>
            if ans p.1 == some p.2.answer then []
            else if isTruthyStr p.2.chapter then [p.2.chapter.getD ""] else []) := by
      simp only [missContribution]
    rw [hbind, bind_guarded_singleton]
  · rw [scoreWeak, scoreWeakAux_enumFrom]
    simp [missContribution]
  · rw [scoreWeak, scoreWeakAux_enumFrom, List.enum]
    have hbind :
        ((List.enumFrom 0 quiz).flatMap fun p =>
            if ans p.1 == some p.2.answer then []
            else missContribution .chapter sel p.2) =
          ((List.enumFrom 0 quiz).flatMap fun p =>
            if ans p.1 == some p.2.answer then []
            else if isTruthyStr p.2.topic then
              [jsStringOr p.2.chapter (jsStringOr sel "")] else []) := by
      simp only [missContribution]
    rw [hbind, bind_guarded_singleton]

/-- Counterexample to C6 as stated: with selected chapter `ChY`, a missed
chapter-quiz question tagged `chapter := "ChX", topic := "T"` is attributed
to its own tag `ChX`, not to the selected chapter `ChY`; and a missed
topic-quiz question contributes nothing rather than the selected chapter. -/
theorem miss_attribution_cex :
    (scoreWeak .chapter (some "ChY") [taggedQ] (fun _ => some "B")).2 = ["ChX"] ∧
    (["ChX"] : List String) ≠ ["ChY"] ∧
    (scoreWeak .topic (some "ChY") [taggedQ] (fun _ => some "B")).2 = [] ∧
    ([] : List String) ≠ ["ChY"] := by
  refine ⟨by decide, by decide, by decide, by decide⟩

/-- C5 (amended): for `topic`, `chapter` and `three_chapter` submissions
the accumulated weak-chapter set (previous set plus the misses of this attempt,
deduplicated in first-occurrence order) is written into the wizard state
exactly when the score ratio of the attempt is below 0.6, and the state is left
unchanged at or above that threshold; for `initial` submissions, however,
the weak chapters of the wizard are unconditionally replaced by the
own raw miss list, regardless of the ratio. -/
theorem weak_persist_threshold :
    (∀ (s : WizardState) (ty : QuizType) (p : ApiResult StudyPlan) (u : ApiResult Unit),
      ty ≠ QuizType.initial →
      (5 * (scoreWeak ty s.selectedChapter (quizFor s ty) (answersFor s ty)).1 <
          3 * (quizFor s ty).length →
        (handleQuizSubmit s ty p u).weakChapters =
          insertionDedup (s.weakChapters ++
            (scoreWeak ty s.selectedChapter (quizFor s ty) (answersFor s ty)).2)) ∧
      (3 * (quizFor s ty).length ≤
          5 * (scoreWeak ty s.selectedChapter (quizFor s ty) (answersFor s ty)).1 →
        (handleQuizSubmit s ty p u).weakChapters = s.weakChapters)) ∧
    (∀ (s : WizardState) (p : ApiResult StudyPlan) (u : ApiResult Unit),
      (handleQuizSubmit s QuizType.initial p u).weakChapters =
        (initialScoreWeak s.initialQuiz s.quizAnswers).2) := by
  constructor
  · intro s ty p u hty
    cases ty with
    | initial => exact absurd rfl hty
    | topic =>
      constructor
      · intro hlt
        cases u <;> simp [handleQuizSubmit, quizSubmitAdvance, applyPutResult, hlt]
      · intro hge
        have hnlt := not_lt.mpr hge
        cases u <;> simp [handleQuizSubmit, quizSubmitAdvance, applyPutResult, hnlt]
    | chapter =>
      constructor
      · intro hlt
        by_cases hc : 3 ≤ s.completedChapters.length <;>
          cases u <;> simp [handleQuizSubmit, quizSubmitAdvance, applyPutResult, hlt, hc]
      · intro hge
        have hnlt := not_lt.mpr hge
        by_cases hc : 3 ≤ s.completedChapters.length <;>
          cases u <;> simp [handleQuizSubmit, quizSubmitAdvance, applyPutResult, hnlt, hc]
    | three_chapter =>
      constructor
      · intro hlt
        cases u <;> simp [handleQuizSubmit, quizSubmitAdvance, applyPutResult, hlt]
      · intro hge
        have hnlt := not_lt.mpr hge
        cases u <;> simp [handleQuizSubmit, quizSubmitAdvance, applyPutResult, hnlt]
  · intro s p u
    by_cases ht : 5 * (scoreWeak QuizType.initial s.selectedChapter
        (quizFor s QuizType.initial) (answersFor s QuizType.initial)).1 <
        3 * (quizFor s QuizType.initial).length <;>
      cases p <;> cases u <;>
        simp [handleQuizSubmit, quizSubmitAdvance, applyPutResult, handleInitialQuizSubmit, ht]

/-- Witness for C5: a failed chapter quiz (ratio 0) persists the
deduplicated accumulation, and an initial submission always adopts its own
recomputed miss list. -/
theorem weak_persist_threshold_witness :
    (handleQuizSubmit
        { chapterQuiz := [taggedQ], selectedChapter := some "ChY",
          weakChapters := ["Algebra"] }
        QuizType.chapter (.ok []) (.ok ())).weakChapters =
      insertionDedup (["Algebra"] ++
        (scoreWeak QuizType.chapter (some "ChY") [taggedQ] (fun _ => none)).2) ∧
    (handleQuizSubmit ratioBoundaryState QuizType.initial (.ok []) (.ok ())).weakChapters =
      (initialScoreWeak ratioBoundaryState.initialQuiz ratioBoundaryState.quizAnswers).2 :=
  ⟨((weak_persist_threshold.1
      { chapterQuiz := [taggedQ], selectedChapter := some "ChY",
        weakChapters := ["Algebra"] }
      QuizType.chapter (.ok []) (.ok ()) (by decide)).1 (by decide)),
   weak_persist_threshold.2 ratioBoundaryState (.ok []) (.ok ())⟩

/-- Counterexample to C5 as stated: an initial submission scoring 3 of 5
(ratio exactly 0.6, not below the threshold) still rewrites the
weak chapters — from `[]` to the attempt miss list `["Ch1", "Ch2"]` —
because `handleInitialQuizSubmit` stores its recomputed list
unconditionally. -/
theorem weak_persist_threshold_cex :
    ratioBoundaryState.weakChapters = [] ∧
    (scoreWeak QuizType.initial ratioBoundaryState.selectedChapter
      (quizFor ratioBoundaryState QuizType.initial)
      (answersFor ratioBoundaryState QuizType.initial)).1 = 3 ∧
    (quizFor ratioBoundaryState QuizType.initial).length = 5 ∧
    ¬ (5 * 3 < 3 * 5) ∧
    (handleQuizSubmit ratioBoundaryState QuizType.initial
        (.ok []) (.ok ())).weakChapters = ["Ch1", "Ch2"] := by
  refine ⟨by decide, by decide, by decide, by decide, by decide⟩

/-- C8: a chapter-quiz submission advances to the three-chapter-mastery
state (step 10) exactly when the completed-chapters set has reached size 3
— never at a smaller size — and the completed-chapters set never shrinks:
quiz submissions leave it untouched, task completion only ever extends it,
and the marks and reschedule handlers do not modify it. -/
theorem three_chapter_mastery_transition :
    (∀ (s : WizardState) (p : ApiResult StudyPlan) (u : ApiResult Unit),
      ((handleQuizSubmit s QuizType.chapter p u).step = 10 ↔
        3 ≤ s.completedChapters.length)) ∧
    (∀ (s : WizardState) (ty : QuizType) (p : ApiResult StudyPlan) (u : ApiResult Unit),
      (handleQuizSubmit s ty p u).completedChapters = s.completedChapters) ∧
    (∀ (s : WizardState) (w : String) (i : Int) (p : ApiResult StudyPlan)
        (r : ApiResult ProgressRecord) (c : String),
      c ∈ s.completedChapters →
      c ∈ (handleTaskCompletion s w i p r).completedChapters) ∧
    (∀ (s : WizardState) (r : ApiResult StudyPlan),
      (handleReschedule s r).1.completedChapters = s.completedChapters) ∧
    (∀ s : WizardState, (handleMarksSubmit s).completedChapters = s.completedChapters) := by
  refine ⟨?_, ?_, ?_, ?_, ?_⟩
  · intro s p u
    by_cases hc : 3 ≤ s.completedChapters.length <;>
      by_cases ht : 5 * (scoreWeak QuizType.chapter s.selectedChapter
          (quizFor s QuizType.chapter) (answersFor s QuizType.chapter)).1 <
          3 * (quizFor s QuizType.chapter).length <;>
        cases u <;>
          simp [handleQuizSubmit, quizSubmitAdvance, applyPutResult, hc, ht]
  · intro s ty p u
    cases ty <;> cases p <;> cases u <;>
      simp [handleQuizSubmit, quizSubmitAdvance, applyPutResult,
        handleInitialQuizSubmit, apply_ite WizardState.completedChapters]
  · intro s w i p r c hc
    unfold handleTaskCompletion
    cases hfind : (s.studyPlan.lookup w).bind (fun ts => ts.find? fun t => t.id == i) with
    | none => exact hc
    | some task =>
      cases p with
      | err d => exact hc
      | ok plan =>
        cases r with
        | err d => exact hc
        | ok rec =>
          show c ∈ (completionChecks s _ task).completedChapters
          unfold completionChecks
          by_cases hchap : (((s.studyPlan.map Prod.snd).flatten.filter
              fun t => t.chapter == task.chapter).all (·.completed)) = true
          · simp only [hchap, if_true]
            exact (mem_insertionDedup c _).mpr (List.mem_append.mpr (Or.inl hc))
          · simp only [hchap, if_false]
            by_cases htop : (((s.studyPlan.map Prod.snd).flatten.filter
                fun t => t.topic == task.topic && t.chapter == task.chapter).all
                  (·.completed)) = true
            · simp only [htop, if_true]
              exact hc
            · simp only [htop, if_false]
              exact hc
  · intro s r
    by_cases h : s.missedDate = "" <;> cases r <;> simp [handleReschedule, h]
  · intro s
    cases hm : s.previousMarks <;> simp [handleMarksSubmit, hm]

/-- Witness for the monotonicity conjunct of C8: a completed chapter `Optics`
survives a subsequent task completion. -/
theorem three_chapter_mastery_transition_witness :
    "Optics" ∈ (handleTaskCompletion
      { motionState with completedChapters := ["Optics"] } "1" 3
      (.ok motionServerPlan) (.ok (motionRecord 3))).completedChapters :=
  three_chapter_mastery_transition.2.2.1
    { motionState with completedChapters := ["Optics"] } "1" 3
    (.ok motionServerPlan) (.ok (motionRecord 3)) "Optics" (by decide)

/-- C4 (code evaluation): completing the last incomplete task of chapter
`Motion` does *not* transition to the chapter-quiz state, because the
completion checks scan the plan captured before the update of the server, in
which the just-completed task is still incomplete.  Completing the 2nd of 3
(one still incomplete) also does not transition, as the claim requires; but
completing the 3rd leaves the wizard in step 6 with no completed chapter
recorded, even though every `Motion` task in the server-updated plan is
complete. -/
theorem task_completion_stale_plan_check :
    (handleTaskCompletion motionStateEarly "1" 2 (.ok motionServerPlanEarly)
        (.ok (motionRecord 2))).step = 6 ∧
    (handleTaskCompletion motionState "1" 3 (.ok motionServerPlan)
        (.ok (motionRecord 3))).step = 6 ∧
    (handleTaskCompletion motionState "1" 3 (.ok motionServerPlan)
        (.ok (motionRecord 3))).completedChapters = [] ∧
    ((motionServerPlan.map Prod.snd).flatten.filter
        (fun t => t.chapter == "Motion")).all (·.completed) = true := by
  refine ⟨by decide, by decide, by decide, by decide⟩

/-- C7 (amended): the dashboard average is the sum of `score || 0` over
*all* records (not only the completed ones) divided by
`max(completed, 1)` and rounded; consequently an empty log and a log whose
records all carry a null score both report an average of 0 — never a
division by zero. -/
theorem progress_stats_spec :
    (∀ l : List ProgressRecord,
      getProgressStats l =
        ((l.filter (·.completed)).length, l.length,
         jsRound ((l.map fun p => jsNumOr p.score 0).sum /
           max (((l.filter (·.completed)).length : ℚ)) 1))) ∧
    getProgressStats [] = (0, 0, 0) ∧
    (∀ l : List ProgressRecord, (∀ p ∈ l, p.score = none) →
      (getProgressStats l).2.2 = 0) := by
  have hmax : ∀ n : Nat,
      (if n = 0 then (1 : ℚ) else (n : ℚ)) = max (n : ℚ) 1 := by
    intro n
    by_cases h : n = 0
    · simp [h]
    · rw [if_neg h, max_eq_left]
      exact_mod_cast Nat.one_le_iff_ne_zero.mpr h
  have hshape : ∀ l : List ProgressRecord,
      getProgressStats l =
        ((l.filter (·.completed)).length, l.length,
         jsRound ((l.map fun p => jsNumOr p.score 0).sum /
           max (((l.filter (·.completed)).length : ℚ)) 1)) := by
    intro l
    simp only [getProgressStats]
    rw [foldl_add_eq_sum, zero_add, hmax]
  refine ⟨hshape, ?_, ?_⟩
  · rw [hshape]
    norm_num [jsRound]
  · intro l hnull
    rw [hshape]
    have hzero : (l.map fun p => jsNumOr p.score 0).sum = 0 := by
      apply List.sum_eq_zero
      intro x hx
      rcases List.mem_map.mp hx with ⟨p, hp, hpx⟩
      rw [← hpx, hnull p hp]
      rfl
    rw [hzero, zero_div]
    norm_num [jsRound]

/-- Witness for the all-null-scores conjunct of C7 at a concrete one-record log. -/
theorem progress_stats_spec_witness :
    (getProgressStats [⟨"task_a", true, none⟩]).2.2 = 0 :=
  progress_stats_spec.2.2 [⟨"task_a", true, none⟩] (by decide)

/-- Counterexample to C7 as stated: a single non-completed record with
score 80 yields average 80, because the sum runs over all records while the
completed-only sum of the claim would yield 0. -/
theorem progress_stats_cex :
    getProgressStats [⟨"t1", false, some 80⟩] = (0, 1, 80) ∧ (80 : Int) ≠ 0 := by
  constructor
  · norm_num [getProgressStats, jsNumOr, jsRound]
  · decide

/-- C9: rescheduling with an empty missed date surfaces a local error and
issues no network request; with a non-empty date it sends exactly the
current subject and the missed date, adopts the plan of a successful response
wholesale (clearing the date and recomputing the nudge), and on failure
surfaces the error of the server while leaving the study plan untouched. -/
theorem reschedule_contract (s : WizardState) (r : ApiResult StudyPlan) :
    (s.missedDate = "" →
      handleReschedule s r =
        ({ s with error := some "Please select a missed date" }, none)) ∧
    (s.missedDate ≠ "" →
      (handleReschedule s r).2 =
        some { subject := s.selectedSubject, missed_date := s.missedDate } ∧
      (∀ plan, r = ApiResult.ok plan →
        (handleReschedule s r).1.studyPlan = plan ∧
        (handleReschedule s r).1.missedDate = "" ∧
        (handleReschedule s r).1.nudge =
          generateNudge s.stats.completedTasks s.stats.totalTasks 0 s.weakChapters) ∧
      (∀ d, r = ApiResult.err d →
        (handleReschedule s r).1.studyPlan = s.studyPlan ∧
        (handleReschedule s r).1.error =
          some (jsStringOr d "Failed to reschedule tasks"))) := by
  constructor
  · intro h
    simp [handleReschedule, h]
  · intro h
    refine ⟨?_, ?_, ?_⟩
    · cases r <;> simp [handleReschedule, h]
    · intro plan hplan
      subst hplan
      simp [handleReschedule, h]
    · intro d hd
      subst hd
      simp [handleReschedule, h]

/-- Witness for C9: the empty-date precondition at the blank state, and an
untouched plan after a failed reschedule of a concrete state. -/
theorem reschedule_contract_witness :
    handleReschedule ({} : WizardState) (.ok []) =
      ({ ({} : WizardState) with error := some "Please select a missed date" }, none) ∧
    (handleReschedule { motionState with missedDate := "2026-02-03" }
        (.err (some "boom"))).1.studyPlan = motionState.studyPlan :=
  ⟨(reschedule_contract ({} : WizardState) (.ok [])).1 rfl,
   (((reschedule_contract { motionState with missedDate := "2026-02-03" }
        (.err (some "boom"))).2 (by decide)).2.2 (some "boom") rfl).1⟩
